import Mathlib

/-!
Verification development for the agent-mesh repository.

The definitions below are a shallow embedding of the Python sources:

  * `query_planner_agent/common_interfaces.py` (error taxonomy, data model),
  * `query_planner_agent/adapters/sqlite_adapter.py` and
    `query_planner_agent/adapters/bigquery_adapter.py` (the two adapter
    implementations of the common data-access contract),
  * `query_planner_agent/mcp_tools.py` (candidate-query finalisation and the
    `plan_and_execute_query` orchestration),
  * `a2a_registry/main.py` and `query_planner_agent/main.py` (the JSON-RPC
    call-envelope dispatchers),
  * `a2a_registry/mcp_tools.py` (registry storage: REPLACE-by-name upsert and
    lookup) and `sink_registry_agent/mcp_tools.py` (sink catalogue CRUD).

Python strings are modelled through their character lists; the helper
functions below mirror `str.strip`, `str.upper`, `str.startswith` and the
`in` substring test for the ASCII inputs the repository manipulates.
External effects (the sqlite3 cursor, the BigQuery client, HTTP calls to the
sink registry, the LLM) are modelled as behaviour functions supplied in a
record, and the embedding additionally records a trace of the backend
interactions so that claims of the form "the backend is never invoked" are
statements about that trace.
-/

/-- ASCII uppercase of a character; models the effect of Python `str.upper`
on the ASCII data handled by the repository. -/
def upperAscii (c : Char) : Char :=
  if c.toNat ≥ 97 && c.toNat ≤ 122 then Char.ofNat (c.toNat - 32) else c

/-- ASCII lowercase of a character; models Python `str.lower` on ASCII data. -/
def lowerAscii (c : Char) : Char :=
  if c.toNat ≥ 65 && c.toNat ≤ 90 then Char.ofNat (c.toNat + 32) else c

/-- Character-list uppercase. -/
def upperChars (l : List Char) : List Char := l.map upperAscii

/-- Character-list lowercase. -/
def lowerChars (l : List Char) : List Char := l.map lowerAscii

/-- Drop matching characters from the end of a list. -/
def dropWhileEnd (p : Char → Bool) (l : List Char) : List Char :=
  (l.reverse.dropWhile p).reverse

/-- Model of Python `str.strip()` (whitespace at both ends). -/
def pyStripChars (l : List Char) : List Char :=
  dropWhileEnd Char.isWhitespace (l.dropWhile Char.isWhitespace)

/-- String-level model of Python `str.strip()`. -/
def pyStrip (s : String) : String := ⟨pyStripChars s.data⟩

/-- String-level model of Python `str.lower()`. -/
def strLower (s : String) : String := ⟨lowerChars s.data⟩

/-- Decide whether `pat` is an initial segment of `l`. Models Python
`str.startswith` at the character-list level. -/
def listStarts : List Char → List Char → Bool
  | [], _ => true
  | _ :: _, [] => false
  | p :: ps, c :: cs => p == c && listStarts ps cs

/-- Decide whether `pat` occurs as a contiguous substring of `l`. Models the
Python `in` test on strings. -/
def listContains (pat : List Char) : List Char → Bool
  | [] => listStarts pat []
  | c :: cs => listStarts pat (c :: cs) || listContains pat cs

/-- Model of Python `s.endswith(pat)`. -/
def listEnds (pat l : List Char) : Bool :=
  listStarts pat.reverse l.reverse

/-- Single-quote character, used to reproduce Python message texts exactly. -/
def pyQuote : String := (Char.ofNat 39).toString

/-- Error taxonomy of `common_interfaces.py`: the four leaves of the
`DataAccessError` family. -/
inductive DataAccessError where
  | configurationError (msg : String)
  | connectionError (msg : String)
  | queryExecutionError (msg : String)
  | schemaError (msg : String)
deriving DecidableEq

/-- Textual payload of a `DataAccessError`; models Python `str(e)`. -/
def DataAccessError.text : DataAccessError → String
  | .configurationError m => m
  | .connectionError m => m
  | .queryExecutionError m => m
  | .schemaError m => m

/-- Scalar cell values appearing in rows, query parameters and metadata. -/
inductive CellValue where
  | str (s : String)
  | int (n : Int)
  | bool (b : Bool)
  | null
deriving DecidableEq

/-- Row shape used by the adapters: one mapping from column name to value,
modelling the Python `dict(zip(columns, row))`. -/
abbrev Row := List (String × CellValue)

/-- QueryObject of `common_interfaces.py` (pydantic defaults included). -/
structure QueryObject where
  query_string : String
  parameters : Option (List (String × CellValue)) := none
  query_type : String := "select"
deriving DecidableEq

/-- QueryResult of `common_interfaces.py`. -/
structure QueryResult where
  success : Bool
  columns : Option (List String) := none
  rows : Option (List Row) := none
  row_count : Option Nat := none
  error_message : Option String := none
  metadata : Option (List (String × CellValue)) := none
deriving DecidableEq

/-- SchemaColumn of `common_interfaces.py`. -/
structure SchemaColumn where
  name : String
  type : String
  required : Option Bool := none
  pk : Option Bool := none
deriving DecidableEq

/-- TableSchema of `common_interfaces.py`. -/
structure TableSchema where
  table_name : String
  columns : List SchemaColumn
  description : Option String := none
deriving DecidableEq

/-- SchemaInfo of `common_interfaces.py` (`raw_schema` is always `None` in
the two adapters, so it is omitted). -/
structure SchemaInfo where
  tables : Option (List TableSchema) := none
  error_message : Option String := none
deriving DecidableEq

/-- Model of `query_string.strip().upper().startswith("SELECT")`, the safety
check of `SQLiteAdapter.execute_query`. -/
def startsWithSelect (s : String) : Bool :=
  listStarts "SELECT".data (upperChars (pyStripChars s.data))

/-- Rejection message used by the SQLite adapter for non-SELECT queries. -/
def sqliteSafetyMsg : String :=
  "Only SELECT queries are allowed through this adapter interface for safety."

/-- Behaviour of a live sqlite3 connection: given a query it either yields
the cursor description (column names) together with the fetched rows, or
fails like a `sqlite3.Error`. -/
structure SQLiteConn where
  run : QueryObject → Except String (List String × List (List CellValue))

/-- State of `SQLiteAdapter` (fields `conn` and `db_path`). -/
structure SQLiteAdapter where
  conn : Option SQLiteConn := none
  db_path : Option String := none

/-- Embedding of `SQLiteAdapter.execute_query`. The second component of the
result is the list of queries actually handed to the sqlite3 cursor, so an
empty list means the backend was never invoked. -/
def SQLiteAdapter.execute_query (a : SQLiteAdapter) (q : QueryObject) :
    Except DataAccessError QueryResult × List QueryObject :=
  match a.conn with
  | none => (.error (.connectionError "Not connected to SQLite. Call connect() first."), [])
  | some c =>
    if startsWithSelect q.query_string = false then
      (.error (.queryExecutionError sqliteSafetyMsg), [])
    else
      match c.run q with
      | .ok (columns, fetched) =>
        let rows_as_dicts : List Row := fetched.map (fun r => columns.zip r)
        (.ok { success := true, columns := some columns, rows := some rows_as_dicts,
               row_count := some rows_as_dicts.length, error_message := none }, [q])
      | .error e =>
        (.error (.queryExecutionError ("SQLite execution error: " ++ e)), [q])

/-- Embedding of `SQLiteAdapter.disconnect`: closes and clears the connection
when one is active, otherwise only logs. -/
def SQLiteAdapter.disconnect (a : SQLiteAdapter) : SQLiteAdapter :=
  match a.conn with
  | some _ => { a with conn := none }
  | none => a

/-- Outcome of a finished BigQuery query job, as observed through the fields
`execute_query` reads: `results.schema`, the row iterator, `total_rows`,
`num_dml_affected_rows` and the job metadata attributes. -/
structure BQJobOutcome where
  schemaCols : List String
  rows : List Row
  totalRows : Option Nat
  dmlAffected : Option Nat
  meta : List (String × CellValue)
deriving DecidableEq

/-- Behaviour of a `bigquery.Client`: `client.query(...).result()`, which
either yields a finished job or raises. The scalar/array parameter
marshalling of `execute_query` configures this call and is folded into it. -/
structure BQClient where
  runQuery : QueryObject → Except String BQJobOutcome

/-- State of `BigQueryAdapter` (fields used by the embedded methods). -/
structure BigQueryAdapter where
  client : Option BQClient := none
  project_id : Option String := none

/-- Embedding of `BigQueryAdapter.execute_query`. Note the source performs no
read-only validation whatsoever: after the connection check the query goes
straight to `client.query`. The trace component again lists the queries
submitted to the backend. -/
def BigQueryAdapter.execute_query (a : BigQueryAdapter) (q : QueryObject) :
    Except DataAccessError QueryResult × List QueryObject :=
  match a.client with
  | none => (.error (.connectionError "Not connected to BigQuery. Call connect() first."), [])
  | some cl =>
    match cl.runQuery q with
    | .ok res =>
      let affected : Option Nat :=
        if strLower q.query_type = "select" then
          some (match res.totalRows with
                | some n => if n = 0 then res.rows.length else n
                | none => res.rows.length)
        else res.dmlAffected
      (.ok { success := true, columns := some res.schemaCols, rows := some res.rows,
             row_count := affected, metadata := some res.meta, error_message := none }, [q])
    | .error e =>
      (.error (.queryExecutionError ("BigQuery execution error: " ++ e)), [q])

/-- Embedding of `BigQueryAdapter.disconnect`: releases the client when one
is present, otherwise only logs and returns. -/
def BigQueryAdapter.disconnect (a : BigQueryAdapter) : BigQueryAdapter :=
  match a.client with
  | none => a
  | some _ => { a with client := none }

/-- Mutating statement verbs named by the specification (the concrete list of
data-mutating keywords also used verbatim by `dbservice_agent/mcp_tools.py`). -/
def mutatingVerbs : List String :=
  ["INSERT", "UPDATE", "DELETE", "DROP", "CREATE", "ALTER", "TRUNCATE"]

/-- Modelled from the spec: the normalized query text begins with one of the
mutating verbs. This is the hypothesis class of the adapter-safety claim. -/
def startsWithMutatingVerb (s : String) : Bool :=
  mutatingVerbs.any (fun v => listStarts v.data (upperChars (pyStripChars s.data)))

theorem listStarts_head_ne {a b : Char} {p q l : List Char} (hab : ¬ a = b)
    (h : listStarts (a :: p) l = true) : listStarts (b :: q) l = false := by
  cases l with
  | nil => simp [listStarts] at h
  | cons c cs =>
    simp only [listStarts, Bool.and_eq_true, beq_iff_eq] at h
    have hbc : (b == c) = false := by
      rw [beq_eq_false_iff_ne]
      exact fun hb => hab (h.1.trans hb.symm)
    simp [listStarts, hbc]

theorem startsWithMutatingVerb_not_select {s : String}
    (h : startsWithMutatingVerb s = true) : startsWithSelect s = false := by
  unfold startsWithMutatingVerb mutatingVerbs at h
  unfold startsWithSelect
  rw [show "SELECT".data = 'S' :: "ELECT".data from rfl]
  simp only [List.any_cons, List.any_nil, Bool.or_eq_true, Bool.or_false] at h
  rcases h with h | h | h | h | h | h | h <;>
    exact listStarts_head_ne (by decide) h

/-- Drop the first `n` characters of a string; models Python slicing `s[n:]`. -/
def strDropData (s : String) (n : Nat) : String := ⟨s.data.drop n⟩

/-- Drop the last `n` characters of a string; models Python slicing `s[:-n]`. -/
def strDropEndData (s : String) (n : Nat) : String := ⟨s.data.take (s.data.length - n)⟩

/-- Embedding of the markdown-fence stripping applied to the extracted
candidate query in `_generate_query_object_with_llm` (three successive
conditional slices, each followed by `strip()`). -/
def stripFences (q0 : String) : String :=
  let q1 := if listStarts "```sql".data q0.data then pyStrip (strDropData q0 6) else q0
  let q2 := if listEnds "```".data q1.data then pyStrip (strDropEndData q1 3) else q1
  if listStarts "```".data q2.data then pyStrip (strDropData q2 3) else q2

/-- Embedding of `query_string_from_llm.strip().rstrip(';')` followed by the
fence stripping: the cleaned candidate text the planner validates. -/
def cleanCandidate (raw : String) : String :=
  stripFences ⟨dropWhileEnd (fun c => c == ';') (pyStripChars raw.data)⟩

/-- Model of `query_string_from_llm.upper().startswith("SELECT")`, the only
validation the planner applies to a synthesized candidate. -/
def selectUpperStart (q : String) : Bool :=
  listStarts "SELECT".data (upperChars q.data)

/-- Embedding of the default-LIMIT policy of `_generate_query_object_with_llm`:
append `LIMIT 20` unless the upper-cased candidate already contains the
substring `LIMIT`, `COUNT(*)` or `COUNT(`. -/
def applyDefaultLimit (q : String) : String :=
  let u := upperChars q.data
  if !(listContains "LIMIT".data u) && !(listContains "COUNT(*)".data u)
      && !(listContains "COUNT(".data u) then
    q ++ " LIMIT 20"
  else q

/-- Embedding of the tail of `_generate_query_object_with_llm` (the part after
the LLM text has been parsed into a candidate string and optional parameter
mapping): clean the candidate, reject empty or non-SELECT-starting text with
`QueryExecutionError`, apply the default LIMIT policy, and build the
`QueryObject`. -/
def finalize_llm_candidate (raw : String)
    (ps : Option (List (String × CellValue))) :
    Except DataAccessError QueryObject :=
  let q := cleanCandidate raw
  if q = "" then
    .error (.queryExecutionError "LLM failed to generate a query string from its output.")
  else if selectUpperStart q = false then
    .error (.queryExecutionError
      "LLM generated a non-SELECT query. Only SELECT queries are supported for safety.")
  else
    .ok { query_string := applyDefaultLimit q, parameters := ps, query_type := "select" }

/-- Decide whether an `Except` outcome is a `QueryExecutionError`. -/
def isQueryExecutionError {α : Type} : Except DataAccessError α → Bool
  | .error (.queryExecutionError _) => true
  | _ => false

/-- Word characters for SQL token boundaries (alphanumerics and underscore). -/
def isWordChar (c : Char) : Bool := c.isAlphanum || c == '_'

/-- Modelled from the spec: the standalone tokens of a query text, obtained
by splitting the upper-cased text at non-word characters. -/
def queryTokens (s : String) : List (List Char) :=
  ((upperChars s.data).splitOnP (fun c => !(isWordChar c))).filter (fun t => t ≠ [])

/-- Modelled from the spec: the query text contains a data-mutating keyword
as a standalone token. -/
def containsMutatingToken (s : String) : Bool :=
  mutatingVerbs.any (fun v => (queryTokens s).contains v.data)

/-- Substring containment of the upper-cased candidate used to state the
LIMIT-policy claim: the candidate mentions a LIMIT clause. -/
def mentionsLimit (s : String) : Bool :=
  listContains "LIMIT".data (upperChars s.data)

/-- Substring containment of the upper-cased candidate used to state the
LIMIT-policy claim: the candidate mentions a COUNT aggregate call. -/
def mentionsCountAggregate (s : String) : Bool :=
  listContains "COUNT(".data (upperChars s.data)

theorem listStarts_of_append {p r l : List Char}
    (h : listStarts (p ++ r) l = true) : listStarts p l = true := by
  induction p generalizing l with
  | nil => rfl
  | cons a as ih =>
    cases l with
    | nil => simp [listStarts] at h
    | cons c cs =>
      simp only [List.cons_append, listStarts, Bool.and_eq_true] at h ⊢
      exact ⟨h.1, ih h.2⟩

theorem listContains_of_append {p r l : List Char}
    (h : listContains (p ++ r) l = true) : listContains p l = true := by
  induction l with
  | nil =>
    simp only [listContains] at h ⊢
    cases p with
    | nil => rfl
    | cons a as => simp [listStarts] at h
  | cons c cs ih =>
    simp only [listContains, Bool.or_eq_true] at h ⊢
    rcases h with h | h
    · exact Or.inl (listStarts_of_append h)
    · exact Or.inr (ih h)

theorem countStar_implies_countCall {u : List Char}
    (h : listContains "COUNT(*)".data u = true) :
    listContains "COUNT(".data u = true := by
  have e : "COUNT(*)".data = "COUNT(".data ++ "*)".data := by decide
  rw [e] at h
  exact listContains_of_append h

/-- Correlation token of the call envelope (`id: number or string`). -/
inductive RpcId where
  | num (n : Int)
  | str (s : String)
deriving DecidableEq

/-- Error object of the call-envelope response. -/
structure RpcError where
  code : Int
  message : String
  data : Option String := none
deriving DecidableEq

/-- Call-envelope response as built by the two dispatchers: the handlers only
ever put a `result` key or an `error` key into the returned dict. -/
structure RpcResponse where
  jsonrpc : String := "2.0"
  result : Option String := none
  error : Option RpcError := none
  id : Option RpcId := none
deriving DecidableEq

/-- Call-envelope request (`JSONRPCRequest` pydantic model of both `main.py`
files). Parameter values are opaque here; binding only inspects their names. -/
structure RpcRequest where
  jsonrpc : String := "2.0"
  method : String
  params : List (String × String) := []
  id : Option RpcId := none

/-- Outcome of invoking a resolved handler: a value, an `AttributeError`
escaping the handler body, or any other exception escaping it. -/
inductive HandlerOutcome where
  | ok (value : String)
  | raiseAttr (msg : String)
  | raiseOther (msg : String)

/-- One entry of the capability set resolved by `hasattr`/`getattr` over the
`mcp_tools` module: the Python signature (required and optional keyword
parameters) plus the handler behaviour. -/
structure Handler where
  requiredParams : List String
  optionalParams : List String
  run : List (String × String) → HandlerOutcome

/-- Model of Python keyword binding `func(**params)`: it succeeds exactly
when every required parameter is provided and every provided name is a
parameter of the function; otherwise a `TypeError` is raised. -/
def bindsOk (h : Handler) (ps : List (String × String)) : Bool :=
  h.requiredParams.all (fun r => (ps.map Prod.fst).contains r) &&
  ps.all (fun kv => h.requiredParams.contains kv.1 || h.optionalParams.contains kv.1)

/-- Stand-in for the text of the Python `TypeError` raised by a failed
keyword binding (the dispatchers only forward `str(e)` as diagnostic data). -/
def typeErrorText (method : String) : String :=
  "TypeError: invalid arguments for " ++ method

/-- Dispatcher result: either a FastAPI `HTTPException` or an envelope. -/
inductive HttpOutcome where
  | httpError (status : Nat) (detail : String)
  | envelope (resp : RpcResponse)

/-- Response carrying only an error object, as built by both dispatchers. -/
def errResponse (code : Int) (message : String) (data : Option String)
    (id : Option RpcId) : RpcResponse :=
  { error := some { code := code, message := message, data := data }, id := id }

/-- Embedding of `handle_a2a` of `a2a_registry/main.py` (see the doc comment
on `errResponse` for the response shape): version check, method resolution
(unknown method raises `AttributeError`, answered with -32601), keyword
binding and invocation, with `AttributeError` answered by -32601 and every
other exception by -32603 `Internal error`. -/
def handle_a2a (tools : List (String × Handler)) (req : RpcRequest) : HttpOutcome :=
  if req.jsonrpc ≠ "2.0" then .httpError 400 "Invalid JSON-RPC version"
  else
    match tools.find? (fun t => t.1 == req.method) with
    | none =>
      .envelope (errResponse (-32601)
        ("Method " ++ pyQuote ++ req.method ++ pyQuote ++ " not found") none req.id)
    | some (_, h) =>
      if bindsOk h req.params then
        match h.run req.params with
        | .ok v => .envelope { result := some v, id := req.id }
        | .raiseAttr m => .envelope (errResponse (-32601) m none req.id)
        | .raiseOther m => .envelope (errResponse (-32603) "Internal error" (some m) req.id)
      else
        .envelope (errResponse (-32603) "Internal error"
          (some (typeErrorText req.method)) req.id)

/-- Embedding of `handle_a2a_request` of `query_planner_agent/main.py`: no
version check; unknown method answered with -32601 `Method not found`; any
exception escaping binding or the handler answered with -32000 `Server
error`. -/
def handle_a2a_request (tools : List (String × Handler)) (req : RpcRequest) : RpcResponse :=
  match tools.find? (fun t => t.1 == req.method) with
  | none => errResponse (-32601) "Method not found" none req.id
  | some (_, h) =>
    if bindsOk h req.params then
      match h.run req.params with
      | .ok v => { result := some v, id := req.id }
      | .raiseAttr m => errResponse (-32000) ("Server error: " ++ m) none req.id
      | .raiseOther m => errResponse (-32000) ("Server error: " ++ m) none req.id
    else
      errResponse (-32000) ("Server error: " ++ typeErrorText req.method) none req.id

/-- Error code carried by a dispatcher outcome, if any. -/
def errCodeOf : HttpOutcome → Option Int
  | .envelope r => r.error.map (fun e => e.code)
  | .httpError _ _ => none

/-- Parameter metadata entry of `create_method_metadata`. -/
structure ParamMeta where
  name : String
  type : String
  required : Bool
  description : String
deriving DecidableEq

/-- Return metadata entry of `create_method_metadata`. -/
structure RetMeta where
  name : String
  type : String
  description : String
deriving DecidableEq

/-- Capability Descriptor: one method entry of an agent card. -/
structure MethodMeta where
  name : String
  description : String
  params : List ParamMeta
  returns : List RetMeta
deriving DecidableEq

/-- Agent Descriptor (agent card) as stored by the registry seed data. -/
structure AgentCard where
  name : String
  description : String
  url : String
  url_ext : Option String := none
  methods : List MethodMeta
deriving DecidableEq

/-- State of the `agents` table (`name TEXT PRIMARY KEY, card TEXT`): an
association list from name to the stored card. The JSON round trip
`json.loads(json.dumps(card))` is the identity on card data, so the card is
stored structurally. -/
abbrev RegistryDb := List (String × AgentCard)

/-- Embedding of `REPLACE INTO agents (name, card) VALUES (?, ?)`: sqlite
REPLACE deletes any row with the conflicting primary key and inserts the new
row. -/
def replaceAgent (db : RegistryDb) (card : AgentCard) : RegistryDb :=
  db.filter (fun kv => kv.1 != card.name) ++ [(card.name, card)]

/-- Embedding of `get_agent` of `a2a_registry/mcp_tools.py`: select the card
by name; an absent row yields the empty dict, modelled as `none`. -/
def get_agent (db : RegistryDb) (name : String) : Option AgentCard :=
  (db.find? (fun kv => kv.1 == name)).map (fun kv => kv.2)

/-- Sink Descriptor as built by `register_sink` of
`sink_registry_agent/mcp_tools.py`. -/
structure SinkRecord where
  sink_id : String
  name : String
  description : String
  sink_type : String
  connection_ref : String
  schema_definition : Option String := none
  query_agent_method : String
  schema_agent_method : String
deriving DecidableEq

/-- State of the sink catalogue (`sinks.json`): a Python dict, modelled as an
insertion-ordered association list. -/
abbrev SinkCatalogue := List (String × SinkRecord)

/-- Model of the Python dict assignment `d[k] = v`: replace the binding in
place when the key is present (keys are unique in a dict), append otherwise. -/
def dictSet : SinkCatalogue → String → SinkRecord → SinkCatalogue
  | [], k, v => [(k, v)]
  | kv :: rest, k, v => if kv.1 == k then (k, v) :: rest else kv :: dictSet rest k v

/-- Embedding of `register_sink`: load the catalogue, assign the freshly
built record under its `sink_id`, save. (The save step is modelled as always
succeeding; an IOError path only changes the returned status dict.) -/
def register_sink (m : SinkCatalogue) (r : SinkRecord) : SinkCatalogue :=
  dictSet m r.sink_id r

/-- Embedding of `get_sink_details`: `sinks.get(sink_id)`, which returns
`None` when the key is absent and the stored mapping otherwise. -/
def get_sink_details (m : SinkCatalogue) (sink_id : String) : Option SinkRecord :=
  (m.find? (fun kv => kv.1 == sink_id)).map (fun kv => kv.2)

/-- Value of `connection_ref` in a sink configuration: the planner factory
distinguishes a plain string path from a JSON object. -/
inductive ConnRefVal where
  | strVal (s : String)
  | dictVal (fields : List (String × String))
deriving DecidableEq

/-- Fields of the sink configuration dict that `plan_and_execute_query`
reads: `sink_type` (possibly absent) and `connection_ref` (defaulted to the
empty dict by `.get("connection_ref", ...)`). -/
structure SinkConfig where
  sink_type : Option String := none
  connection_ref : ConnRefVal := .dictVal []
deriving DecidableEq

/-- Fields of the optional `llm_analysis` dict the planner reads. -/
structure AnalysisInfo where
  operation : Option String := none
  entity_name : Option String := none
deriving DecidableEq

/-- Observable adapter interactions of one planning request. A request with
no `adapterConstructed` event never instantiated an adapter; the disconnect
events record the `finally` step and whether `adapter.disconnect()` raised. -/
inductive PlanEvent where
  | adapterConstructed (sink_type : String)
  | adapterConnected (sink_type : String)
  | queryExecuted (query : String)
  | disconnectSucceeded
  | disconnectFailed
deriving DecidableEq

/-- Environment of one planning request: the behaviour of the external
collaborators (sink registry over HTTP, backend connection attempt, schema
fetch, LLM synthesis plus output parsing, query execution, disconnect). -/
structure PlannerEnv where
  llmAvailable : Bool
  sinkLookup : String → Except DataAccessError (Option SinkConfig)
  connectOutcome : String → ConnRefVal → Except DataAccessError Unit
  schemaFetch : Option String → Except DataAccessError SchemaInfo
  llmExtract : Except DataAccessError (String × Option (List (String × CellValue)))
  executeOutcome : QueryObject → Except DataAccessError QueryResult
  disconnectOk : Bool

/-- Failure message for a sink id the registry does not know. -/
def sinkNotFoundMsg (sink_id : String) : String :=
  "Sink configuration for ID " ++ pyQuote ++ sink_id ++ pyQuote ++
  " not found or invalid from SinkRegistryAgent."

/-- Failure message for a sink configuration without a `sink_type` (the
source appends the repr of the full configuration dict, elided here). -/
def sinkTypeMissingMsg (sink_id : String) : String :=
  "Sink type not defined for sink_id " ++ pyQuote ++ sink_id ++ pyQuote ++ "."

/-- Failure message of the adapter factory for an unknown sink type. -/
def unsupportedSinkMsg (sink_type : String) : String :=
  "Unsupported sink type: " ++ sink_type

/-- Failure message of the adapter factory for a malformed SQLite config. -/
def invalidSqliteCfgMsg (sink_id : String) : String :=
  "Invalid config for SQLite adapter for sink " ++ pyQuote ++ sink_id ++ pyQuote ++
  ". Expected path string or dict with " ++ pyQuote ++ "database_file_path" ++ pyQuote ++ "."

/-- Failure message wrapping a connect failure inside the adapter factory. -/
def connectFailMsg (sink_type sink_id : String) (e : DataAccessError) : String :=
  "Failed to connect adapter for sink type " ++ pyQuote ++ sink_type ++ pyQuote ++
  ", ID " ++ pyQuote ++ sink_id ++ pyQuote ++ ": " ++ e.text

/-- Keys of `ADAPTER_MAP` in `query_planner_agent/mcp_tools.py`. -/
def adapterMapKeys : List String := ["sqlite", "bigquery"]

/-- Embedding of `get_adapter_factory_local`: check the sink type against
`ADAPTER_MAP`, construct the adapter instance (recorded as an event), massage
the SQLite configuration, and connect, wrapping any connect failure into a
`ConnectionError`. Note the instance is constructed before the configuration
check and the connect attempt, so those failure paths still carry the
`adapterConstructed` event. -/
def adapterFactory (env : PlannerEnv) (sink_type : String) (cfg : ConnRefVal)
    (sink_id : String) : Except DataAccessError Unit × List PlanEvent :=
  if adapterMapKeys.contains sink_type = false then
    (.error (.configurationError (unsupportedSinkMsg sink_type)), [])
  else
    let constructed := [PlanEvent.adapterConstructed sink_type]
    let effective : Except DataAccessError ConnRefVal :=
      if sink_type = "sqlite" then
        match cfg with
        | .strVal p => .ok (.dictVal [("database_file_path", p)])
        | .dictVal fields =>
          if (fields.map Prod.fst).contains "database_file_path" then .ok cfg
          else .error (.configurationError (invalidSqliteCfgMsg sink_id))
      else .ok cfg
    match effective with
    | .error e => (.error e, constructed)
    | .ok eff =>
      match env.connectOutcome sink_type eff with
      | .ok _ => (.ok (), constructed ++ [PlanEvent.adapterConnected sink_type])
      | .error e => (.error (.connectionError (connectFailMsg sink_type sink_id e)), constructed)

/-- Embedding of the schema-inquiry detection in `plan_and_execute_query`. -/
def isGetSchemaIntent (user_intent : String) (an : Option AnalysisInfo) : Bool :=
  listContains "schema for".data (lowerChars user_intent.data) ||
  listContains "get schema".data (lowerChars user_intent.data) ||
  (match an with
   | some a => a.operation == some "get_schema"
   | none => false)

/-- Characters stripped from an extracted entity name (backtick, single
quote, double quote). -/
def entityStripChars : List Char := [Char.ofNat 96, Char.ofNat 39, Char.ofNat 34]

/-- Strip a set of characters from both ends; models Python `str.strip(cs)`. -/
def pyStripSet (cs : List Char) (s : String) : String :=
  ⟨dropWhileEnd (fun c => cs.contains c) (s.data.dropWhile (fun c => cs.contains c))⟩

/-- Embedding of the ad hoc entity extraction
`intent.lower().split(sep)[-1].strip().split(" ")[0].strip(chars)`. -/
def extractAfter (sep low : String) : String :=
  pyStripSet entityStripChars
    (((pyStrip ((low.splitOn sep).getLastD "")).splitOn " ").headD "")

/-- Embedding of the intent-based fallback extraction of the entity name. -/
def extractFromIntent (low : String) : Option String :=
  if listContains "schema for table".data low.data then
    some (extractAfter "schema for table" low)
  else if listContains "schema for".data low.data then
    some (extractAfter "schema for" low)
  else none

/-- Embedding of the entity-name resolution for a schema inquiry: prefer a
truthy `entity_name` from the analysis dict, fall back to intent parsing.
All downstream uses of the result are Python truthiness tests, so an empty
extracted string is normalised to `none`. -/
def extractEntityName (user_intent : String) (an : Option AnalysisInfo) : Option String :=
  let low := strLower user_intent
  let fromAnalysis : Option String :=
    match an with
    | some a => a.entity_name
    | none => none
  let cand : Option String :=
    match fromAnalysis with
    | some e => if e = "" then extractFromIntent low else some e
    | none => extractFromIntent low
  match cand with
  | some e => if e = "" then none else some e
  | none => none

/-- Truthiness of an optional string, as Python evaluates it. -/
def pyTruthyStr : Option String → Bool
  | some s => s ≠ ""
  | none => false

/-- Cell for an optional boolean schema flag. -/
def optBoolCell : Option Bool → CellValue
  | some b => .bool b
  | none => .null

/-- Cell for an optional string schema field. -/
def optStrCell : Option String → CellValue
  | some s => .str s
  | none => .null

/-- Column headers of the normalised schema-inquiry result. -/
def schemaHeaderCols : List String :=
  ["table_name", "column_name", "column_type", "is_primary_key", "is_required",
   "table_description"]

/-- Rows of the normalised schema-inquiry result: one row per column of each
table, exactly as `plan_and_execute_query` flattens the `SchemaInfo`. -/
def schemaInfoRows (si : SchemaInfo) : List Row :=
  match si.tables with
  | none => []
  | some ts =>
    (ts.map (fun t => t.columns.map (fun c =>
      [("table_name", CellValue.str t.table_name),
       ("column_name", CellValue.str c.name),
       ("column_type", CellValue.str c.type),
       ("is_primary_key", optBoolCell c.pk),
       ("is_required", optBoolCell c.required),
       ("table_description", optStrCell t.description)]))).flatten

/-- Metadata message of the schema-inquiry result. -/
def schemaIntentMsg (sink_id : String) (entity : Option String) : String :=
  "Schema: sink " ++ pyQuote ++ sink_id ++ pyQuote ++ " (entity: " ++
  entity.getD "all" ++ ")."

/-- Schema-inquiry result: a normal successful `QueryResult`, not a distinct
response shape. -/
def schemaIntentResult (sink_id : String) (entity : Option String)
    (si : SchemaInfo) : QueryResult :=
  { success := true, columns := some schemaHeaderCols,
    rows := some (schemaInfoRows si), row_count := some (schemaInfoRows si).length,
    metadata := some [("message", CellValue.str (schemaIntentMsg sink_id entity))] }

/-- Body of the `try` block of `plan_and_execute_query`: sink resolution,
adapter factory, schema-inquiry branch or plan-and-execute branch. The three
components are the outcome (a raised `DataAccessError` or a returned
`QueryResult`), the adapter-interaction events, and whether the local
`adapter` variable was assigned (which is what the `finally` block tests). -/
def planBody (env : PlannerEnv) (user_intent sink_id : String)
    (an : Option AnalysisInfo) :
    Except DataAccessError QueryResult × List PlanEvent × Bool :=
  match env.sinkLookup sink_id with
  | .error e => (.error e, [], false)
  | .ok none => (.error (.configurationError (sinkNotFoundMsg sink_id)), [], false)
  | .ok (some cfg) =>
    match cfg.sink_type with
    | none => (.error (.configurationError (sinkTypeMissingMsg sink_id)), [], false)
    | some st =>
      if st = "" then (.error (.configurationError (sinkTypeMissingMsg sink_id)), [], false)
      else
        match adapterFactory env st cfg.connection_ref sink_id with
        | (.error e, evs) => (.error e, evs, false)
        | (.ok _, evs) =>
          if isGetSchemaIntent user_intent an then
            match env.schemaFetch (extractEntityName user_intent an) with
            | .error e => (.error e, evs, true)
            | .ok si =>
              if pyTruthyStr si.error_message && (si.tables.getD []).isEmpty then
                (.ok { success := false, error_message := si.error_message }, evs, true)
              else
                (.ok (schemaIntentResult sink_id (extractEntityName user_intent an) si),
                 evs, true)
          else
            match env.schemaFetch none with
            | .error e => (.error e, evs, true)
            | .ok _ =>
              match env.llmExtract with
              | .error e => (.error e, evs, true)
              | .ok (raw, ps) =>
                match finalize_llm_candidate raw ps with
                | .error e => (.error e, evs, true)
                | .ok qobj =>
                  match env.executeOutcome qobj with
                  | .error e => (.error e, evs ++ [PlanEvent.queryExecuted qobj.query_string], true)
                  | .ok r => (.ok r, evs ++ [PlanEvent.queryExecuted qobj.query_string], true)

/-- Failure message returned when the planner has no LLM client. -/
def llmUnavailableMsg : String :=
  "Query Planner" ++ pyQuote ++ "s LLM client is not available."

/-- Embedding of `plan_and_execute_query` of `query_planner_agent/mcp_tools.py`:
the LLM-availability guard, the `try` body, the `except DataAccessError`
conversion into a failure `QueryResult`, and the `finally` step that attempts
`adapter.disconnect()` exactly when the `adapter` variable was assigned and
swallows a disconnect failure. -/
def plan_and_execute_query (env : PlannerEnv) (user_intent sink_id : String)
    (an : Option AnalysisInfo) : QueryResult × List PlanEvent :=
  if env.llmAvailable = false then
    ({ success := false, error_message := some llmUnavailableMsg }, [])
  else
    match planBody env user_intent sink_id an with
    | (outcome, evs, adapterAssigned) =>
      let result : QueryResult :=
        match outcome with
        | .ok r => r
        | .error e => { success := false, error_message := some e.text }
      let finalEvs : List PlanEvent :=
        if adapterAssigned then
          evs ++ [if env.disconnectOk then PlanEvent.disconnectSucceeded
                  else PlanEvent.disconnectFailed]
        else evs
      (result, finalEvs)

/-- C1 (amended): for the SQLite adapter with an active connection, a query
whose normalized text starts with a mutating verb (INSERT, UPDATE, DELETE,
DROP, ...) makes `execute_query` raise `QueryExecutionError` without ever
invoking the backend (no cursor interaction is recorded). The original claim
extended this to the BigQuery adapter, which the counterexample refutes. -/
theorem C1_sqlite_rejects_mutating_and_skips_backend
    (c : SQLiteConn) (p : Option String) (q : QueryObject)
    (h : startsWithMutatingVerb q.query_string = true) :
    SQLiteAdapter.execute_query { conn := some c, db_path := p } q =
      (.error (.queryExecutionError sqliteSafetyMsg), []) := by
  have hsel := startsWithMutatingVerb_not_select h
  unfold SQLiteAdapter.execute_query
  simp [hsel]

/-- Stub sqlite connection used by concrete instances; it is never reached. -/
def sqliteStubConn : SQLiteConn := { run := fun _ => .error "unused" }

/-- Witness for C1 at a concrete mutating query. -/
theorem C1_sqlite_rejects_mutating_witness :
    startsWithMutatingVerb "DROP TABLE candidates" = true ∧
    SQLiteAdapter.execute_query { conn := some sqliteStubConn, db_path := none }
        { query_string := "DROP TABLE candidates" } =
      (.error (.queryExecutionError sqliteSafetyMsg), []) :=
  ⟨by decide,
   C1_sqlite_rejects_mutating_and_skips_backend sqliteStubConn none
     { query_string := "DROP TABLE candidates" } (by decide)⟩

/-- Job outcome produced by the stubbed BigQuery backend. -/
def bqStubJob : BQJobOutcome :=
  { schemaCols := [], rows := [], totalRows := none, dmlAffected := some 1, meta := [] }

/-- Stub BigQuery client recording that the backend completed the job. -/
def bqStubClient : BQClient := { runQuery := fun _ => .ok bqStubJob }

/-- Connected BigQuery adapter state. -/
def bqConnectedState : BigQueryAdapter :=
  { client := some bqStubClient, project_id := some "p" }

/-- Concrete mutating query object (pydantic defaults for the rest). -/
def dropQueryObject : QueryObject := { query_string := "DROP TABLE candidates" }

/-- C1 counterexample: the BigQuery adapter performs no read-only check.
On a connected adapter a DROP query is submitted to the backend (the trace
contains the query job) and `execute_query` returns a successful result
instead of raising `QueryExecutionError`. -/
theorem C1_counterexample_bigquery_executes_mutating :
    startsWithMutatingVerb dropQueryObject.query_string = true ∧
    BigQueryAdapter.execute_query bqConnectedState dropQueryObject =
      (.ok { success := true, columns := some [], rows := some [], row_count := some 0,
             metadata := some [], error_message := none }, [dropQueryObject]) :=
  ⟨by decide, rfl⟩

/-- C2 (amended): the planner re-validates a synthesized candidate only by
checking that the cleaned text begins (case-insensitively) with SELECT; any
candidate failing that check (including an empty one) makes the request fail
with `QueryExecutionError`. No standalone-token scan for data-mutating
keywords is performed. -/
theorem C2_amended_only_select_start_validated (raw : String)
    (ps : Option (List (String × CellValue)))
    (h : selectUpperStart (cleanCandidate raw) = false) :
    isQueryExecutionError (finalize_llm_candidate raw ps) = true := by
  unfold finalize_llm_candidate
  by_cases he : cleanCandidate raw = ""
  · simp [he, isQueryExecutionError]
  · simp [he, h, isQueryExecutionError]

/-- Witness for C2 (amended) at a concrete non-SELECT candidate. -/
theorem C2_amended_witness :
    selectUpperStart (cleanCandidate "DELETE FROM candidates") = false ∧
    isQueryExecutionError (finalize_llm_candidate "DELETE FROM candidates" none) = true :=
  ⟨by decide,
   C2_amended_only_select_start_validated "DELETE FROM candidates" none (by decide)⟩

/-- C2 counterexample: a candidate that begins with SELECT but contains the
data-mutating keyword DROP as a standalone token is accepted by the planner
(the request does not fail with `QueryExecutionError`; the candidate is even
completed with the default LIMIT and turned into a `QueryObject`). -/
theorem C2_counterexample_mutating_token_accepted :
    containsMutatingToken "SELECT 1; DROP TABLE candidates" = true ∧
    finalize_llm_candidate "SELECT 1; DROP TABLE candidates" none =
      .ok { query_string := "SELECT 1; DROP TABLE candidates LIMIT 20",
            parameters := none, query_type := "select" } :=
  ⟨by decide, rfl⟩

/-- C6 (confirmed): a successfully finalised candidate gets ` LIMIT 20`
appended exactly when its upper-cased text mentions neither a LIMIT clause
nor a COUNT aggregate call; otherwise it is left unmodified. -/
theorem C6_default_limit_policy (raw : String)
    (ps : Option (List (String × CellValue))) (qo : QueryObject)
    (hok : finalize_llm_candidate raw ps = .ok qo) :
    (mentionsLimit (cleanCandidate raw) = false ∧
        mentionsCountAggregate (cleanCandidate raw) = false →
      qo.query_string = cleanCandidate raw ++ " LIMIT 20") ∧
    (mentionsLimit (cleanCandidate raw) = true ∨
        mentionsCountAggregate (cleanCandidate raw) = true →
      qo.query_string = cleanCandidate raw) := by
  have hq : qo.query_string = applyDefaultLimit (cleanCandidate raw) := by
    simp only [finalize_llm_candidate] at hok
    by_cases he : cleanCandidate raw = ""
    · rw [if_pos he] at hok
      exact absurd hok (by simp)
    · rw [if_neg he] at hok
      by_cases hs : selectUpperStart (cleanCandidate raw) = false
      · rw [if_pos hs] at hok
        exact absurd hok (by simp)
      · rw [if_neg hs] at hok
        rw [← Except.ok.inj hok]
  constructor
  · rintro ⟨hl, hc⟩
    unfold mentionsLimit at hl
    unfold mentionsCountAggregate at hc
    have hcs : listContains "COUNT(*)".data (upperChars (cleanCandidate raw).data) = false := by
      cases hx : listContains "COUNT(*)".data (upperChars (cleanCandidate raw).data) with
      | false => rfl
      | true =>
        rw [countStar_implies_countCall hx] at hc
        exact absurd hc (by simp)
    rw [hq]
    unfold applyDefaultLimit
    simp [hl, hc, hcs]
  · intro hor
    rw [hq]
    unfold applyDefaultLimit
    rcases hor with h | h
    · unfold mentionsLimit at h
      simp [h]
    · unfold mentionsCountAggregate at h
      simp [h]

/-- Witness for C6 at a concrete candidate without a LIMIT clause. -/
theorem C6_default_limit_witness :
    mentionsLimit (cleanCandidate "SELECT name FROM candidates") = false ∧
    mentionsCountAggregate (cleanCandidate "SELECT name FROM candidates") = false ∧
    (QueryObject.mk "SELECT name FROM candidates LIMIT 20" none "select").query_string =
      cleanCandidate "SELECT name FROM candidates" ++ " LIMIT 20" :=
  ⟨by decide, by decide,
   (C6_default_limit_policy "SELECT name FROM candidates" none
      { query_string := "SELECT name FROM candidates LIMIT 20",
        parameters := none, query_type := "select" } rfl).1 ⟨by decide, by decide⟩⟩

/-- C3 (confirmed): a planning request whose sink id resolves to no Sink
Descriptor produces a failure `QueryResult` (the `ConfigurationError`
converted by the `except DataAccessError` handler) carrying the
sink-not-found message, and its event trace is empty: no adapter is ever
constructed or connected. -/
theorem C3_missing_sink_fails_without_adapter (env : PlannerEnv)
    (user_intent sink_id : String) (an : Option AnalysisInfo)
    (hllm : env.llmAvailable = true)
    (hsink : env.sinkLookup sink_id = .ok none) :
    (plan_and_execute_query env user_intent sink_id an).1.success = false ∧
    (plan_and_execute_query env user_intent sink_id an).1.error_message =
      some (sinkNotFoundMsg sink_id) ∧
    (plan_and_execute_query env user_intent sink_id an).2 = [] := by
  simp [plan_and_execute_query, planBody, hllm, hsink, DataAccessError.text]

/-- Environment whose sink registry knows no sinks; the remaining behaviour
functions are never reached on the missing-sink path. -/
def emptyRegistryEnv : PlannerEnv :=
  { llmAvailable := true
    sinkLookup := fun _ => .ok none
    connectOutcome := fun _ _ => .ok ()
    schemaFetch := fun _ => .ok {}
    llmExtract := .ok ("SELECT 1", none)
    executeOutcome := fun _ => .ok { success := true }
    disconnectOk := true }

/-- Witness for C3 at a concrete unregistered sink id. -/
theorem C3_missing_sink_witness :
    (plan_and_execute_query emptyRegistryEnv "list all engineers" "missing_sink" none).1.success = false ∧
    (plan_and_execute_query emptyRegistryEnv "list all engineers" "missing_sink" none).1.error_message =
      some (sinkNotFoundMsg "missing_sink") ∧
    (plan_and_execute_query emptyRegistryEnv "list all engineers" "missing_sink" none).2 = [] :=
  C3_missing_sink_fails_without_adapter emptyRegistryEnv "list all engineers"
    "missing_sink" none rfl rfl

theorem planBody_ignores_disconnectOk (env : PlannerEnv) (b : Bool)
    (user_intent sink_id : String) (an : Option AnalysisInfo) :
    planBody { env with disconnectOk := b } user_intent sink_id an =
      planBody env user_intent sink_id an := rfl

theorem plan_result_ignores_disconnectOk (env : PlannerEnv) (b : Bool)
    (user_intent sink_id : String) (an : Option AnalysisInfo) :
    (plan_and_execute_query { env with disconnectOk := b } user_intent sink_id an).1 =
      (plan_and_execute_query env user_intent sink_id an).1 := by
  obtain ⟨la, sl, co, sf, le, eo, dk⟩ := env
  unfold plan_and_execute_query
  rw [planBody_ignores_disconnectOk]
  rcases h : planBody ⟨la, sl, co, sf, le, eo, dk⟩ user_intent sink_id an with ⟨outcome, evs, asg⟩
  by_cases hla : la = false
  · simp [hla]
  · simp [hla]

/-- Environment in which the sink resolves to a SQLite sink but the backend
connection attempt fails inside the adapter factory. -/
def connectFailEnv : PlannerEnv :=
  { llmAvailable := true
    sinkLookup := fun _ =>
      .ok (some { sink_type := some "sqlite", connection_ref := .strVal "/data/db.sqlite" })
    connectOutcome := fun _ _ => .error (.connectionError "SQLite database file not found")
    schemaFetch := fun _ => .ok {}
    llmExtract := .ok ("SELECT 1", none)
    executeOutcome := fun _ => .ok { success := true }
    disconnectOk := true }

/-- C5 counterexample: when the factory constructs the adapter instance but
`connect()` fails, the local `adapter` variable of `plan_and_execute_query`
is never assigned, so the `finally` step skips `disconnect()` entirely: the
trace records the construction and no disconnect attempt, refuting the claim
that every request in which an adapter was constructed attempts disconnect. -/
theorem C5_counterexample_connect_failure_skips_disconnect :
    (plan_and_execute_query connectFailEnv "list all engineers" "s1" none).2 =
      [PlanEvent.adapterConstructed "sqlite"] ∧
    (plan_and_execute_query connectFailEnv "list all engineers" "s1" none).1.success = false :=
  ⟨rfl, rfl⟩

/-- C5 (amended): whenever the adapter factory returned a connected adapter
(the `adapter` variable was assigned, which `planBody` reports in its third
component), the `finally` step attempts `adapter.disconnect()` regardless of
which later state failed — the trace always ends with a disconnect event,
successful or failed — and a failing disconnect is swallowed: the returned
`QueryResult` is the same as in a run whose disconnect succeeds. -/
theorem C5_amended_disconnect_after_assignment (env : PlannerEnv)
    (user_intent sink_id : String) (an : Option AnalysisInfo)
    (hllm : env.llmAvailable = true)
    (hassigned : (planBody env user_intent sink_id an).2.2 = true) :
    (plan_and_execute_query env user_intent sink_id an).2 =
      (planBody env user_intent sink_id an).2.1 ++
        [if env.disconnectOk then PlanEvent.disconnectSucceeded
         else PlanEvent.disconnectFailed] ∧
    (plan_and_execute_query env user_intent sink_id an).1 =
      (plan_and_execute_query { env with disconnectOk := true }
        user_intent sink_id an).1 := by
  constructor
  · rcases h : planBody env user_intent sink_id an with ⟨outcome, evs, asg⟩
    rw [h] at hassigned
    simp only at hassigned
    unfold plan_and_execute_query
    rw [h]
    simp [hllm, hassigned]
  · exact (plan_result_ignores_disconnectOk env true user_intent sink_id an).symm

/-- Environment in which every stage succeeds but `adapter.disconnect()`
raises in the `finally` step. -/
def disconnectRaisesEnv : PlannerEnv :=
  { llmAvailable := true
    sinkLookup := fun _ =>
      .ok (some { sink_type := some "sqlite", connection_ref := .strVal "/data/db.sqlite" })
    connectOutcome := fun _ _ => .ok ()
    schemaFetch := fun _ => .ok { tables := some [] }
    llmExtract := .ok ("SELECT 1", none)
    executeOutcome := fun _ => .ok { success := true }
    disconnectOk := false }

/-- Witness for C5 (amended) on a concrete run whose disconnect raises. -/
theorem C5_amended_witness :
    (plan_and_execute_query disconnectRaisesEnv "list all engineers" "s1" none).2 =
      (planBody disconnectRaisesEnv "list all engineers" "s1" none).2.1 ++
        [if disconnectRaisesEnv.disconnectOk then PlanEvent.disconnectSucceeded
         else PlanEvent.disconnectFailed] ∧
    (plan_and_execute_query disconnectRaisesEnv "list all engineers" "s1" none).1 =
      (plan_and_execute_query { disconnectRaisesEnv with disconnectOk := true }
        "list all engineers" "s1" none).1 :=
  C5_amended_disconnect_after_assignment disconnectRaisesEnv "list all engineers"
    "s1" none rfl (by decide)

/-- C4 (amended): a request whose method resolves to a handler but whose
params fail Python keyword binding (missing required parameter or unexpected
name) never crashes the dispatcher: it is answered with a structured error
envelope, but the code used is the generic internal-error code (-32603 in
the registry dispatcher, -32000 in the query-planner dispatcher), not a
distinct invalid-params code. -/
theorem C4_amended_bad_params_generic_error (tools : List (String × Handler))
    (req : RpcRequest) (name : String) (h : Handler)
    (hv : req.jsonrpc = "2.0")
    (hm : tools.find? (fun t => t.1 == req.method) = some (name, h))
    (hb : bindsOk h req.params = false) :
    handle_a2a tools req =
      .envelope (errResponse (-32603) "Internal error"
        (some (typeErrorText req.method)) req.id) ∧
    handle_a2a_request tools req =
      errResponse (-32000) ("Server error: " ++ typeErrorText req.method) none req.id := by
  constructor
  · unfold handle_a2a
    rw [hv]
    simp [hm, hb]
  · unfold handle_a2a_request
    simp [hm, hb]

/-- Handler standing for `get_agent` (one required keyword parameter). -/
def getAgentHandler : Handler :=
  { requiredParams := ["name"], optionalParams := [], run := fun _ => .ok "card" }

/-- Handler whose body raises a generic exception. -/
def crashingHandler : Handler :=
  { requiredParams := ["name"], optionalParams := [], run := fun _ => .raiseOther "boom" }

/-- C4 counterexample: a call to `get_agent` with its required parameter
missing is answered with error code -32603 — the very same code produced
when a resolved handler raises internally — so the response is not in a
reserved invalid-params code class distinct from internal-error. -/
theorem C4_counterexample_missing_param_is_internal_error_code :
    errCodeOf (handle_a2a [("get_agent", getAgentHandler)]
      { method := "get_agent", params := [], id := some (.num 7) }) = some (-32603) ∧
    errCodeOf (handle_a2a [("get_agent", crashingHandler)]
      { method := "get_agent", params := [("name", "x")], id := some (.num 8) }) =
      some (-32603) :=
  ⟨rfl, rfl⟩

/-- Witness for C4 (amended) at a concrete request with missing params. -/
theorem C4_amended_witness :
    handle_a2a [("get_agent", getAgentHandler)]
        { method := "get_agent", params := [], id := some (.num 7) } =
      .envelope (errResponse (-32603) "Internal error"
        (some (typeErrorText "get_agent")) (some (.num 7))) ∧
    handle_a2a_request [("get_agent", getAgentHandler)]
        { method := "get_agent", params := [], id := some (.num 7) } =
      errResponse (-32000) ("Server error: " ++ typeErrorText "get_agent")
        none (some (.num 7)) :=
  C4_amended_bad_params_generic_error [("get_agent", getAgentHandler)]
    { method := "get_agent", params := [], id := some (.num 7) }
    "get_agent" getAgentHandler rfl rfl rfl

/-- C7 (confirmed): a request whose method does not resolve in the capability
set is answered by both dispatchers with an error response in the
method-not-found band (-32601) and no result field; -32601 is distinct from
the internal-error and server-error codes the dispatchers use elsewhere. -/
theorem C7_unknown_method_not_found (tools : List (String × Handler))
    (req : RpcRequest)
    (hv : req.jsonrpc = "2.0")
    (hm : tools.find? (fun t => t.1 == req.method) = none) :
    handle_a2a tools req =
      .envelope (errResponse (-32601)
        ("Method " ++ pyQuote ++ req.method ++ pyQuote ++ " not found") none req.id) ∧
    handle_a2a_request tools req = errResponse (-32601) "Method not found" none req.id ∧
    (errResponse (-32601) "Method not found" none req.id).result = none ∧
    ((-32601 : Int) ≠ -32603 ∧ (-32601 : Int) ≠ -32000) := by
  refine ⟨?_, ?_, rfl, by decide, by decide⟩
  · unfold handle_a2a
    rw [hv]
    simp [hm]
  · unfold handle_a2a_request
    simp [hm]

/-- Witness for C7 at a concrete unknown method. -/
theorem C7_unknown_method_witness :
    handle_a2a [] { method := "no_such_method", id := none } =
      .envelope (errResponse (-32601)
        ("Method " ++ pyQuote ++ "no_such_method" ++ pyQuote ++ " not found") none none) ∧
    handle_a2a_request [] { method := "no_such_method", id := none } =
      errResponse (-32601) "Method not found" none none :=
  ⟨(C7_unknown_method_not_found [] { method := "no_such_method", id := none } rfl rfl).1,
   (C7_unknown_method_not_found [] { method := "no_such_method", id := none } rfl rfl).2.1⟩

theorem find?_replaceAgent (db : RegistryDb) (c : AgentCard) :
    (replaceAgent db c).find? (fun kv => kv.1 == c.name) = some (c.name, c) := by
  unfold replaceAgent
  induction db with
  | nil => simp [List.find?]
  | cons hd tl ih =>
    by_cases h : hd.1 = c.name
    · simp only [List.filter_cons]
      rw [if_neg (by simp [h])]
      exact ih
    · simp only [List.filter_cons]
      rw [if_pos (by simp [h])]
      simp only [List.cons_append, List.find?_cons]
      rw [show ((hd.1 == c.name) = false) from by simp [h]]
      exact ih

/-- C8 (confirmed): registering an Agent Descriptor and looking it up by its
name returns exactly the registered card, for any prior registry state; and
re-registering under an existing name replaces the stored card entirely —
the database after registering over an old card with the same name is the
same as registering into a registry that never held the old card. -/
theorem C8_register_lookup_roundtrip (db : RegistryDb) (c cOld : AgentCard)
    (hname : cOld.name = c.name) :
    get_agent (replaceAgent db c) c.name = some c ∧
    replaceAgent (replaceAgent db cOld) c = replaceAgent db c := by
  constructor
  · unfold get_agent
    rw [find?_replaceAgent]
    rfl
  · unfold replaceAgent
    rw [hname, List.filter_append, List.filter_filter]
    simp [Bool.and_self]

/-- Agent card used by concrete registry instances. -/
def authCard : AgentCard :=
  { name := "auth_agent", description := "Handles user login and token verification",
    url := "http://auth_agent:8000/a2a", url_ext := some "http://localhost:8100/a2a",
    methods := [
      { name := "login",
        description := "Validates credentials and returns an auth token.",
        params := [
          { name := "username", type := "string", required := true,
            description := "User login name" },
          { name := "password", type := "string", required := true,
            description := "User password (secret)" }],
        returns := [
          { name := "token", type := "string",
            description := "Authentication token if successful" }] }] }

/-- Stale card under the same agent name with a different capability list. -/
def authCardOld : AgentCard :=
  { authCard with description := "old revision", methods := [] }

/-- Witness for C8 at a concrete card over a registry holding a stale card. -/
theorem C8_register_lookup_witness :
    get_agent (replaceAgent [] authCard) authCard.name = some authCard ∧
    replaceAgent (replaceAgent [] authCardOld) authCard = replaceAgent [] authCard :=
  C8_register_lookup_roundtrip [] authCard authCardOld rfl

/-- C9 (confirmed): for both adapters, `disconnect` is idempotent — two
consecutive calls on any state end in the same state as one call, the model
of each disconnect body is total (it cannot raise), and calling it with no
active connection is a no-op. -/
theorem C9_disconnect_idempotent (s : SQLiteAdapter) (b : BigQueryAdapter) :
    s.disconnect.disconnect = s.disconnect ∧
    b.disconnect.disconnect = b.disconnect ∧
    (s.conn = none → s.disconnect = s) ∧
    (b.client = none → b.disconnect = b) := by
  obtain ⟨sc, sp⟩ := s
  obtain ⟨bc, bp⟩ := b
  refine ⟨?_, ?_, ?_, ?_⟩
  · cases sc <;> rfl
  · cases bc <;> rfl
  · intro h
    cases sc with
    | none => rfl
    | some c => simp [SQLiteAdapter.conn] at h
  · intro h
    cases bc with
    | none => rfl
    | some c => simp [BigQueryAdapter.client] at h

/-- Witness for C9 at concrete disconnected adapter states. -/
theorem C9_disconnect_idempotent_witness :
    ({ conn := none, db_path := none } : SQLiteAdapter).disconnect.disconnect =
      ({ conn := none, db_path := none } : SQLiteAdapter).disconnect ∧
    ({ client := none, project_id := none } : BigQueryAdapter).disconnect =
      { client := none, project_id := none } :=
  ⟨(C9_disconnect_idempotent { conn := none, db_path := none }
      { client := none, project_id := none }).1,
   (C9_disconnect_idempotent { conn := none, db_path := none }
      { client := none, project_id := none }).2.2.2 rfl⟩

theorem find?_dictSet (m : SinkCatalogue) (k : String) (v : SinkRecord) :
    (dictSet m k v).find? (fun kv => kv.1 == k) = some (k, v) := by
  induction m with
  | nil => simp [dictSet, List.find?]
  | cons hd tl ih =>
    unfold dictSet
    by_cases h : hd.1 = k
    · rw [if_pos (by simp [h])]
      simp [List.find?]
    · rw [if_neg (by simp [h])]
      simp only [List.find?_cons]
      rw [show ((hd.1 == k) = false) from by simp [h]]
      exact ih

/-- C10 (confirmed): `get_sink_details` returns an absent value (`None`),
not an exception and not an error object, for any sink id with no entry in
the catalogue; for a freshly registered sink id it returns exactly the
stored Sink Descriptor; and it is the planner that converts the absent value
into a `ConfigurationError`-derived failure result. -/
theorem C10_get_sink_details_behaviour (cat : SinkCatalogue) (sid : String)
    (r : SinkRecord) (env : PlannerEnv) (user_intent sink_id : String)
    (an : Option AnalysisInfo)
    (habsent : (cat.map Prod.fst).contains sid = false)
    (hllm : env.llmAvailable = true)
    (hsink : env.sinkLookup sink_id = .ok none) :
    get_sink_details cat sid = none ∧
    get_sink_details (register_sink cat r) r.sink_id = some r ∧
    ((plan_and_execute_query env user_intent sink_id an).1.success = false ∧
     (plan_and_execute_query env user_intent sink_id an).1.error_message =
       some (sinkNotFoundMsg sink_id)) := by
  refine ⟨?_, ?_, ?_⟩
  · unfold get_sink_details
    have hnone : cat.find? (fun kv => kv.1 == sid) = none := by
      rw [List.find?_eq_none]
      intro x hx hbeq
      have hmem : x.1 ∈ cat.map Prod.fst := List.mem_map_of_mem Prod.fst hx
      have : (cat.map Prod.fst).contains sid = true := by
        rw [List.contains_eq_any_beq]
        exact List.any_eq_true.mpr ⟨x.1, hmem, by simpa [BEq.comm] using hbeq⟩
      rw [this] at habsent
      exact absurd habsent (by simp)
    rw [hnone]
    rfl
  · unfold get_sink_details register_sink
    rw [find?_dictSet]
    rfl
  · simp [plan_and_execute_query, planBody, hllm, hsink, DataAccessError.text]

/-- Sink record used by the concrete catalogue instance. -/
def candidatesSink : SinkRecord :=
  { sink_id := "candidates_db", name := "Candidates DB",
    description := "Embedded candidates store", sink_type := "sqlite",
    connection_ref := "/data/candidates.db", schema_definition := none,
    query_agent_method := "dbservice_agent.execute_query",
    schema_agent_method := "dbservice_agent.get_schema" }

/-- Witness for C10 at a concrete empty catalogue and a registered sink. -/
theorem C10_get_sink_details_witness :
    get_sink_details [] "unknown_sink" = none ∧
    get_sink_details (register_sink [] candidatesSink) candidatesSink.sink_id =
      some candidatesSink ∧
    ((plan_and_execute_query emptyRegistryEnv "list all engineers" "unknown_sink" none).1.success = false ∧
     (plan_and_execute_query emptyRegistryEnv "list all engineers" "unknown_sink" none).1.error_message =
       some (sinkNotFoundMsg "unknown_sink")) :=
  C10_get_sink_details_behaviour [] "unknown_sink" candidatesSink emptyRegistryEnv
    "list all engineers" "unknown_sink" none rfl rfl rfl
